import Mathlib

/-!
Shallow embedding of the API client of the skill-judge-AI repository.

The client lives in src/Skilljudgeaiuidesign/src/api/api.js (the canonical
file) together with near-duplicate variants in src/unnamed/part_001
(functions getApiBaseUrl, safeParseResponse, and a safeParse variant whose
invalid-JSON message carries a bounded excerpt of the body).

Modelling conventions:
- A JSON value is the inductive type Json below.  The platform primitive
  JSON.parse is not re-implemented; instead every HTTP response carries,
  next to its body text, the Option Json result of running JSON.parse on
  that text (none when JSON.parse throws).  Concrete inputs used in
  theorems always pair a text with the parse result real JSON.parse gives.
- A fetch outcome is either a transport failure carrying the thrown value
  (an Error with a message, or a non-Error value) or a response carrying
  an HTTP status, the body text, and the parse result of that text.
- JavaScript template strings are modelled by string concatenation, and
  Object.keys by jsObjectKeys below, including the fact that
  Object.keys(null) throws a TypeError; that evaluation happens inside the
  try block of safeParse, as an argument of console.log, so it is part of
  control flow.
- String.trim models the JS trim over the ASCII whitespace both agree on;
  substring(0, n) is modelled by taking the first n characters.
-/

namespace SkillJudge

/-- JSON values, as produced by JSON.parse. -/
inductive Json where
  | null
  | bool (b : Bool)
  | num (n : Int)
  | str (s : String)
  | arr (elems : List Json)
  | obj (fields : List (String × Json))

/-- A value thrown inside the client: either a JS Error carrying a message
(the case the instanceof Error test accepts) or any non-Error value. -/
inductive Thrown where
  | jsError (message : String)
  | nonError
deriving DecidableEq

/-- The outcome of a fetch call: a transport-level failure (the promise
rejects before any response exists) or a response with an HTTP status, the
body text, and the result of JSON.parse on that text. -/
inductive FetchOutcome where
  | failure (t : Thrown)
  | response (status : Nat) (text : String) (parse : Option Json)

/-- res.ok of the Fetch API: status in the range 200-299. -/
def resOk (status : Nat) : Bool :=
  200 ≤ status && status ≤ 299

/-- Object.keys of JavaScript, as an Except to record that it throws a
TypeError on null (Cannot convert undefined or null to object); on objects
it returns the field names, on arrays and strings the index strings, on
numbers and booleans the empty list. -/
def jsObjectKeys : Json → Except String (List String)
  | Json.null => Except.error "Cannot convert undefined or null to object"
  | Json.obj fields => Except.ok (fields.map (fun f => f.1))
  | Json.arr elems => Except.ok ((List.range elems.length).map toString)
  | Json.str s => Except.ok ((List.range s.length).map toString)
  | Json.num _ => Except.ok []
  | Json.bool _ => Except.ok []

/-- safeParse of api.js (lines 25-44).  The body text is read once; an empty
text throws the empty-response error naming the status; then, inside the
try block, JSON.parse runs and console.log evaluates
Object.keys(parsed).join.  A throw from either one - JSON.parse on invalid
text, or Object.keys on the value null - lands in the catch, which throws
the fixed invalid-JSON message without any excerpt of the body. -/
def safeParse (status : Nat) (text : String) (parse : Option Json) :
    Except String Json :=
  if text = "" then
    Except.error ("Empty response from server (status: " ++ toString status ++ ")")
  else
    match parse with
    | none => Except.error "Invalid JSON response from server"
    | some parsed =>
      match jsObjectKeys parsed with
      | Except.error _ => Except.error "Invalid JSON response from server"
      | Except.ok _ => Except.ok parsed

/-- The non-ok branch shared by uploadResume (api.js lines 63-74) and
analyzeRole (api.js lines 105-116).  The source reads the body as text and
runs

  try \x7b
    const errorJson = JSON.parse(errorText);
    throw new Error(errorJson.message || errorJson.detail || HTTP-status);
  \x7d catch \x7b
    throw new Error(errorText || HTTP-status);
  \x7d

The bare catch intercepts every throw from the try block, including the
explicit throw built from errorJson, so on both arms the error that leaves
the branch carries errorText when it is non-empty and the HTTP-status
message otherwise. -/
def errorBranch (status : Nat) (errorText : String) (parse : Option Json) :
    String :=
  match parse with
  | some _errorJson =>
      -- the throw built from errorJson.message / errorJson.detail is
      -- caught by the bare catch of the same statement
      if errorText = "" then "HTTP " ++ toString status else errorText
  | none =>
      if errorText = "" then "HTTP " ++ toString status else errorText

/-- The message the dead throw of the non-ok branch would have produced:
errorJson.message || errorJson.detail || HTTP-status, with JS truthiness
(an absent field and an empty string both fall through).  Only string
fields are modelled, which covers the inputs used below. -/
def lookupField (fields : List (String × Json)) (key : String) : Option Json :=
  (fields.find? (fun f => f.1 = key)).map (fun f => f.2)

/-- One step of the || chain of the dead throw: a string field is truthy
exactly when it is non-empty. -/
def fieldOr (v : Option Json) (fallback : String) : String :=
  match v with
  | some (Json.str s) => if s = "" then fallback else s
  | _ => fallback

/-- Message the inner throw of the non-ok branch would carry if it were not
swallowed: message field, else detail field, else the HTTP-status text. -/
def intendedErrorMessage (status : Nat) (errorJson : Json) : String :=
  match errorJson with
  | Json.obj fields =>
      fieldOr (lookupField fields "message")
        (fieldOr (lookupField fields "detail") ("HTTP " ++ toString status))
  | _ => "HTTP " ++ toString status

/-- The try block of uploadResume / analyzeRole in api.js: a transport
failure rethrows the thrown value; a non-ok response throws the Error built
by the non-ok branch; an ok response goes through safeParse. -/
def clientTry (o : FetchOutcome) : Except Thrown Json :=
  match o with
  | FetchOutcome.failure t => Except.error t
  | FetchOutcome.response status text parse =>
    if resOk status then
      match safeParse status text parse with
      | Except.error m => Except.error (Thrown.jsError m)
      | Except.ok v => Except.ok v
    else
      Except.error (Thrown.jsError (errorBranch status text parse))

/-- uploadResume of api.js (lines 51-84).  The outer catch rewraps the
thrown value: the message of an Error instance is kept, any other value is
replaced by the fixed unknown-error text, and a fresh Error carrying that
message is thrown to the caller. -/
def uploadResume (o : FetchOutcome) : Except String Json :=
  match clientTry o with
  | Except.ok v => Except.ok v
  | Except.error t =>
    Except.error
      (match t with
       | Thrown.jsError m => m
       | Thrown.nonError => "Unknown error uploading resume")

/-- analyzeRole of api.js (lines 92-126): identical control flow to
uploadResume, with its own unknown-error fallback text. -/
def analyzeRole (o : FetchOutcome) : Except String Json :=
  match clientTry o with
  | Except.ok v => Except.ok v
  | Except.error t =>
    Except.error
      (match t with
       | Thrown.jsError m => m
       | Thrown.nonError => "Unknown error analyzing role")

/-- API_BASE_URL of api.js (line 10): import.meta.env.VITE_API_BASE_URL
with the JS || fallback to the empty string (an unset variable is none, and
an empty string is falsy); no trimming and no slash stripping. -/
def API_BASE_URL (viteApiBaseUrl : Option String) : String :=
  match viteApiBaseUrl with
  | none => ""
  | some s => if s = "" then "" else s

/-- Request URL of uploadResume: base plus the upload path. -/
def uploadUrl (base : String) : String :=
  base ++ "/api/resume/upload"

/-- Request URL of analyzeRole: base plus the analyze path. -/
def analyzeUrl (base : String) : String :=
  base ++ "/api/role/analyze"

/-- The whitespace characters of the JS trim that occur in the inputs of
this development (the JS set also holds rarer Unicode space characters). -/
def isJsWhitespace (c : Char) : Bool :=
  c = ' ' || c = '\t' || c = '\n' || c = '\r' || c = '\x0b' || c = '\x0c'

/-- trim of JS: remove leading and trailing whitespace. -/
def jsTrim (s : String) : String :=
  String.mk (((s.toList.dropWhile isJsWhitespace).reverse.dropWhile
    isJsWhitespace).reverse)

/-- The blank test repeated in getApiBaseUrl (part_001 lines 120-128):
a value is skipped when it is null or undefined (none) or trims to the
empty string. -/
def isBlank : Option String → Bool
  | none => true
  | some s => jsTrim s = ""

/-- replace of JS with the anchored, non-global pattern slash-end: removes
exactly one trailing slash when present. -/
def stripOneTrailingSlash (s : String) : String :=
  if s.toList.getLast? = some '/' then String.mk s.toList.dropLast else s

/-- getApiBaseUrl of part_001 (lines 120-128): a non-blank window override
wins and is trimmed and stripped of one trailing slash; otherwise
VITE_API_BASE_URL when non-blank, else VITE_API_URL when non-blank, else
the empty string, the chosen value trimmed and then stripped of one
trailing slash. -/
def getApiBaseUrl (windowOverride viteApiBaseUrl viteApiUrl : Option String) :
    String :=
  if isBlank windowOverride = false then
    stripOneTrailingSlash (jsTrim (windowOverride.getD ""))
  else
    let fromEnv :=
      if isBlank viteApiBaseUrl = false then jsTrim (viteApiBaseUrl.getD "")
      else if isBlank viteApiUrl = false then jsTrim (viteApiUrl.getD "")
      else ""
    stripOneTrailingSlash fromEnv

/-- safeParseResponse of part_001 (lines 22-38): like safeParse of api.js
but the empty-body test also catches whitespace-only texts
(the source tests !text || !text.trim()); the invalid-JSON message is the
same fixed text without excerpt. -/
def safeParseResponse (status : Nat) (text : String) (parse : Option Json) :
    Except String Json :=
  if text = "" || jsTrim text = "" then
    Except.error ("Empty response from server (status: " ++ toString status ++ ")")
  else
    match parse with
    | none => Except.error "Invalid JSON response from server"
    | some parsed =>
      match jsObjectKeys parsed with
      | Except.error _ => Except.error "Invalid JSON response from server"
      | Except.ok _ => Except.ok parsed

/-- substring(0, n) of JS, modelled over characters. -/
def jsSubstring0 (s : String) (n : Nat) : String :=
  String.mk (s.toList.take n)

/-- The safeParse variant of part_001 (lines 143-162): identical to
safeParse of api.js except that the invalid-JSON message appends
text.substring(0, 100), a bounded excerpt of the offending body. -/
def safeParseBounded (status : Nat) (text : String) (parse : Option Json) :
    Except String Json :=
  if text = "" then
    Except.error ("Empty response from server (status: " ++ toString status ++ ")")
  else
    match parse with
    | none =>
        Except.error ("Invalid JSON response from server: " ++ jsSubstring0 text 100)
    | some parsed =>
      match jsObjectKeys parsed with
      | Except.error _ =>
          Except.error ("Invalid JSON response from server: " ++ jsSubstring0 text 100)
      | Except.ok _ => Except.ok parsed

/-- Modelled from the spec: safeParse of api.js with the console-log calls
removed (logging as a pure observability hook, spec section 9), so the
evaluation of Object.keys(parsed) inside console.log disappears and every
successfully parsed value is returned. -/
def safeParseLogFree (status : Nat) (text : String) (parse : Option Json) :
    Except String Json :=
  if text = "" then
    Except.error ("Empty response from server (status: " ++ toString status ++ ")")
  else
    match parse with
    | none => Except.error "Invalid JSON response from server"
    | some parsed => Except.ok parsed

/-- Modelled from the spec: the try block of uploadResume / analyzeRole
with the console-log calls removed. -/
def clientTryLogFree (o : FetchOutcome) : Except Thrown Json :=
  match o with
  | FetchOutcome.failure t => Except.error t
  | FetchOutcome.response status text parse =>
    if resOk status then
      match safeParseLogFree status text parse with
      | Except.error m => Except.error (Thrown.jsError m)
      | Except.ok v => Except.ok v
    else
      Except.error (Thrown.jsError (errorBranch status text parse))

/-- Modelled from the spec: uploadResume of api.js with the console-log
calls removed, used to test whether logging is a control-flow dependency
of the result. -/
def uploadResumeLogFree (o : FetchOutcome) : Except String Json :=
  match clientTryLogFree o with
  | Except.ok v => Except.ok v
  | Except.error t =>
    Except.error
      (match t with
       | Thrown.jsError m => m
       | Thrown.nonError => "Unknown error uploading resume")

/-- Modelled from the spec: analyzeRole of api.js with the console-log
calls removed. -/
def analyzeRoleLogFree (o : FetchOutcome) : Except String Json :=
  match clientTryLogFree o with
  | Except.ok v => Except.ok v
  | Except.error t =>
    Except.error
      (match t with
       | Thrown.jsError m => m
       | Thrown.nonError => "Unknown error analyzing role")

/-- A fetch outcome whose transport failure, if any, is an Error carrying a
non-empty message, as the platform produces (fetch rejects with a TypeError
whose message is a fixed non-empty text such as Failed to fetch). -/
def thrownMsgNonempty : FetchOutcome → Prop
  | FetchOutcome.failure (Thrown.jsError m) => m ≠ ""
  | _ => True

/-! Shared characterization lemmas. -/

/-- A string whose character list is non-empty is not the empty string. -/
theorem string_ne_empty_of_data (s : String) (h : s.data ≠ []) : s ≠ "" := by
  intro e
  rw [e] at h
  exact h rfl

/-- The middle factor of a three-part concatenation occurs in it. -/
theorem toList_infix_mid (a x b : String) :
    x.toList <:+: (a ++ x ++ b).toList := by
  refine ⟨a.toList, b.toList, ?_⟩
  show a.data ++ x.data ++ b.data = ((a ++ x) ++ b).data
  rw [String.data_append, String.data_append]

/-- The right factor of a concatenation occurs in it. -/
theorem toList_infix_right (a x : String) : x.toList <:+: (a ++ x).toList := by
  have h : (a ++ x).toList = a.toList ++ x.toList := String.data_append a x
  rw [h]
  exact (List.suffix_append a.toList x.toList).isInfix

/-- Both arms of the non-ok branch collapse to the same message. -/
theorem errorBranch_eq (status : Nat) (text : String) (parse : Option Json) :
    errorBranch status text parse =
      if text = "" then "HTTP " ++ toString status else text := by
  cases parse <;> rfl

/-- Object.keys succeeds on every JSON value other than null. -/
theorem jsObjectKeys_ok (v : Json) (hv : v ≠ Json.null) :
    ∃ ks, jsObjectKeys v = Except.ok ks := by
  cases v with
  | null => exact absurd rfl hv
  | bool b => exact ⟨_, rfl⟩
  | num n => exact ⟨_, rfl⟩
  | str s => exact ⟨_, rfl⟩
  | arr elems => exact ⟨_, rfl⟩
  | obj fields => exact ⟨_, rfl⟩

/-- safeParse on an empty body. -/
theorem safeParse_empty (status : Nat) (parse : Option Json) :
    safeParse status "" parse =
      Except.error ("Empty response from server (status: " ++ toString status ++ ")") := by
  unfold safeParse
  rw [if_pos rfl]

/-- safeParse on a non-empty body that JSON.parse rejects. -/
theorem safeParse_invalid (status : Nat) (text : String) (h : text ≠ "") :
    safeParse status text none = Except.error "Invalid JSON response from server" := by
  unfold safeParse
  rw [if_neg h]

/-- safeParse on a non-empty body parsed to a non-null value. -/
theorem safeParse_some (status : Nat) (text : String) (v : Json)
    (h : text ≠ "") (hv : v ≠ Json.null) :
    safeParse status text (some v) = Except.ok v := by
  obtain ⟨ks, hk⟩ := jsObjectKeys_ok v hv
  unfold safeParse
  rw [if_neg h]
  simp [hk]

/-- On an ok status, uploadResume returns exactly what safeParse returns:
the Error thrown there is rewrapped by the outer catch with the same
message. -/
theorem uploadResume_response_ok (status : Nat) (text : String)
    (parse : Option Json) (h : resOk status = true) :
    uploadResume (FetchOutcome.response status text parse) =
      safeParse status text parse := by
  cases hs : safeParse status text parse <;>
    simp [uploadResume, clientTry, h, hs]

/-- On a non-ok status, uploadResume rejects with the raw body text, or the
HTTP status text for an empty body. -/
theorem uploadResume_response_bad (status : Nat) (text : String)
    (parse : Option Json) (h : resOk status = false) :
    uploadResume (FetchOutcome.response status text parse) =
      Except.error (if text = "" then "HTTP " ++ toString status else text) := by
  simp [uploadResume, clientTry, h, errorBranch_eq]

/-- Same as uploadResume_response_ok for analyzeRole. -/
theorem analyzeRole_response_ok (status : Nat) (text : String)
    (parse : Option Json) (h : resOk status = true) :
    analyzeRole (FetchOutcome.response status text parse) =
      safeParse status text parse := by
  cases hs : safeParse status text parse <;>
    simp [analyzeRole, clientTry, h, hs]

/-- Same as uploadResume_response_bad for analyzeRole. -/
theorem analyzeRole_response_bad (status : Nat) (text : String)
    (parse : Option Json) (h : resOk status = false) :
    analyzeRole (FetchOutcome.response status text parse) =
      Except.error (if text = "" then "HTTP " ++ toString status else text) := by
  simp [analyzeRole, clientTry, h, errorBranch_eq]

/-- safeParse on a non-empty body parsed to null: the console-log argument
Object.keys(null) throws inside the try block, so the catch produces the
invalid-JSON message. -/
theorem safeParse_null (status : Nat) (text : String) (h : text ≠ "") :
    safeParse status text (some Json.null) =
      Except.error "Invalid JSON response from server" := by
  unfold safeParse
  rw [if_neg h]
  rfl

/-- The HTTP status fallback message is never empty. -/
theorem httpMsg_ne_empty (status : Nat) :
    ("HTTP " ++ toString status : String) ≠ "" := by
  apply string_ne_empty_of_data
  rw [String.data_append]
  intro hc
  exact absurd (List.append_eq_nil.mp hc).1 (by decide)

/-- The empty-body message is never empty. -/
theorem emptyMsg_ne_empty (status : Nat) :
    ("Empty response from server (status: " ++ toString status ++ ")" : String) ≠ "" := by
  apply string_ne_empty_of_data
  rw [String.data_append, String.data_append]
  intro hc
  exact absurd (List.append_eq_nil.mp (List.append_eq_nil.mp hc).1).1 (by decide)

/-- safeParse always either returns a parsed value or a non-empty message. -/
theorem safeParse_classified (status : Nat) (text : String)
    (parse : Option Json) :
    (∃ v, safeParse status text parse = Except.ok v) ∨
    (∃ m, safeParse status text parse = Except.error m ∧ m ≠ "") := by
  by_cases ht : text = ""
  · subst ht
    exact Or.inr ⟨_, safeParse_empty status parse, emptyMsg_ne_empty status⟩
  · cases parse with
    | none => exact Or.inr ⟨_, safeParse_invalid status text ht, by decide⟩
    | some v =>
      cases v with
      | null => exact Or.inr ⟨_, safeParse_null status text ht, by decide⟩
      | bool b =>
        exact Or.inl ⟨_, safeParse_some status text _ ht (fun e => Json.noConfusion e)⟩
      | num n =>
        exact Or.inl ⟨_, safeParse_some status text _ ht (fun e => Json.noConfusion e)⟩
      | str s =>
        exact Or.inl ⟨_, safeParse_some status text _ ht (fun e => Json.noConfusion e)⟩
      | arr elems =>
        exact Or.inl ⟨_, safeParse_some status text _ ht (fun e => Json.noConfusion e)⟩
      | obj fields =>
        exact Or.inl ⟨_, safeParse_some status text _ ht (fun e => Json.noConfusion e)⟩

/-- Removing the console-log evaluation changes safeParse only at null. -/
theorem safeParse_eq_logFree (status : Nat) (text : String)
    (parse : Option Json) (h : parse ≠ some Json.null) :
    safeParse status text parse = safeParseLogFree status text parse := by
  cases parse with
  | none => rfl
  | some v =>
    cases v with
    | null => exact absurd rfl h
    | bool b => rfl
    | num n => rfl
    | str s => rfl
    | arr elems => rfl
    | obj fields => rfl

/-- Removing the console-log evaluation changes the try block only at
null. -/
theorem clientTry_eq_logFree (status : Nat) (text : String)
    (parse : Option Json) (h : parse ≠ some Json.null) :
    clientTry (FetchOutcome.response status text parse) =
      clientTryLogFree (FetchOutcome.response status text parse) := by
  simp only [clientTry, clientTryLogFree]
  rw [safeParse_eq_logFree status text parse h]

/-! Claim theorems. -/

/-- C1 (code_bug evidence): on a 500 response whose body is the JSON
object with a message field boom, uploadResume and analyzeRole reject with
the raw body text, not with boom as the claim states: the throw built from
errorJson.message is swallowed by the bare catch of its own statement.
The intendedErrorMessage conjunct shows what the dead inner throw would
have produced, and the final conjunct shows the two messages differ. -/
theorem error_field_message_swallowed :
    uploadResume (FetchOutcome.response 500 "\x7b\"message\":\"boom\"\x7d"
        (some (Json.obj [("message", Json.str "boom")]))) =
      Except.error "\x7b\"message\":\"boom\"\x7d" ∧
    analyzeRole (FetchOutcome.response 500 "\x7b\"message\":\"boom\"\x7d"
        (some (Json.obj [("message", Json.str "boom")]))) =
      Except.error "\x7b\"message\":\"boom\"\x7d" ∧
    intendedErrorMessage 500 (Json.obj [("message", Json.str "boom")]) = "boom" ∧
    ("\x7b\"message\":\"boom\"\x7d" : String) ≠ "boom" :=
  ⟨rfl, rfl, rfl, by decide⟩

/-- C2 (counterexample): a 200 response whose body is the five characters
null parses to the JSON value null, yet uploadResume rejects with the
invalid-JSON message instead of resolving with null: the success-path log
evaluates Object.keys(parsed), which throws on null inside the try. -/
theorem null_body_rejected_not_resolved :
    uploadResume (FetchOutcome.response 200 "null" (some Json.null)) =
      Except.error "Invalid JSON response from server" ∧
    ∀ v : Json, uploadResume (FetchOutcome.response 200 "null" (some Json.null)) ≠
      Except.ok v := by
  refine ⟨rfl, fun v h => ?_⟩
  exact Except.noConfusion h

/-- C2 (amended): for every 2xx response whose non-empty body text parses
to a JSON value other than null, uploadResume and analyzeRole resolve with
exactly that parsed value. -/
theorem success_resolves_with_parsed_value (status : Nat) (text : String)
    (v : Json) (hok : resOk status = true) (hne : text ≠ "")
    (hv : v ≠ Json.null) :
    uploadResume (FetchOutcome.response status text (some v)) = Except.ok v ∧
    analyzeRole (FetchOutcome.response status text (some v)) = Except.ok v := by
  rw [uploadResume_response_ok status text (some v) hok,
    analyzeRole_response_ok status text (some v) hok,
    safeParse_some status text v hne hv]
  exact ⟨rfl, rfl⟩

/-- C2 witness: the amended theorem applied at status 200 with body 7. -/
theorem success_resolves_with_parsed_value_witness :
    resOk 200 = true ∧ ("7" : String) ≠ "" ∧ Json.num 7 ≠ Json.null ∧
    uploadResume (FetchOutcome.response 200 "7" (some (Json.num 7))) =
      Except.ok (Json.num 7) := by
  refine ⟨rfl, by decide, fun e => Json.noConfusion e, ?_⟩
  exact (success_resolves_with_parsed_value 200 "7" (Json.num 7) rfl
    (by decide) (fun e => Json.noConfusion e)).1

/-- C3: for every fetch outcome whose transport failure, if any, carries a
non-empty platform message, uploadResume and analyzeRole either resolve or
reject with a single error whose message is non-empty; transport failures
and non-2xx responses are never swallowed into a success, and their
rejection messages are the interpreted texts of the embedding, never a raw
parser message. -/
theorem all_failures_surface_as_nonempty_messages (o : FetchOutcome)
    (h : thrownMsgNonempty o) :
    ((∃ v, uploadResume o = Except.ok v) ∨
      (∃ m, uploadResume o = Except.error m ∧ m ≠ "")) ∧
    ((∃ v, analyzeRole o = Except.ok v) ∨
      (∃ m, analyzeRole o = Except.error m ∧ m ≠ "")) ∧
    (∀ t, o = FetchOutcome.failure t →
      (∃ m, uploadResume o = Except.error m) ∧
      (∃ m, analyzeRole o = Except.error m)) ∧
    (∀ status text parse, o = FetchOutcome.response status text parse →
      resOk status = false →
      uploadResume o =
        Except.error (if text = "" then "HTTP " ++ toString status else text) ∧
      analyzeRole o =
        Except.error (if text = "" then "HTTP " ++ toString status else text)) := by
  cases o with
  | failure t =>
    refine ⟨?_, ?_, fun t2 e => ⟨⟨_, rfl⟩, ⟨_, rfl⟩⟩,
      fun s t2 p e hb => FetchOutcome.noConfusion e⟩
    · cases t with
      | jsError m => exact Or.inr ⟨m, rfl, h⟩
      | nonError => exact Or.inr ⟨_, rfl, by decide⟩
    · cases t with
      | jsError m => exact Or.inr ⟨m, rfl, h⟩
      | nonError => exact Or.inr ⟨_, rfl, by decide⟩
  | response status text parse =>
    have hbadmsg : (if text = "" then "HTTP " ++ toString status else text) ≠ "" := by
      by_cases ht : text = ""
      · rw [if_pos ht]
        exact httpMsg_ne_empty status
      · rw [if_neg ht]
        exact ht
    refine ⟨?_, ?_, fun t2 e => FetchOutcome.noConfusion e, ?_⟩
    · cases hr : resOk status with
      | true =>
        rw [uploadResume_response_ok _ _ _ hr]
        exact safeParse_classified status text parse
      | false =>
        rw [uploadResume_response_bad _ _ _ hr]
        exact Or.inr ⟨_, rfl, hbadmsg⟩
    · cases hr : resOk status with
      | true =>
        rw [analyzeRole_response_ok _ _ _ hr]
        exact safeParse_classified status text parse
      | false =>
        rw [analyzeRole_response_bad _ _ _ hr]
        exact Or.inr ⟨_, rfl, hbadmsg⟩
    · intro s2 t2 p2 e hb
      injection e with e1 e2 e3
      subst e1
      subst e2
      subst e3
      exact ⟨uploadResume_response_bad _ _ _ hb, analyzeRole_response_bad _ _ _ hb⟩

/-- C3 witness: the theorem applied to a connection-refused transport
failure carrying the platform message Failed to fetch. -/
theorem all_failures_surface_witness :
    thrownMsgNonempty (FetchOutcome.failure (Thrown.jsError "Failed to fetch")) ∧
    ((∃ v, uploadResume (FetchOutcome.failure (Thrown.jsError "Failed to fetch")) =
        Except.ok v) ∨
      (∃ m, uploadResume (FetchOutcome.failure (Thrown.jsError "Failed to fetch")) =
        Except.error m ∧ m ≠ "")) := by
  refine ⟨?_, ?_⟩
  · exact (by decide : ("Failed to fetch" : String) ≠ "")
  · exact (all_failures_surface_as_nonempty_messages
      (FetchOutcome.failure (Thrown.jsError "Failed to fetch"))
      (by decide : ("Failed to fetch" : String) ≠ "")).1

/-- C4 (counterexample): a 200 response whose body is a single space (so it
is whitespace-only but non-empty, and JSON.parse rejects it) makes
uploadResume of api.js reject with the invalid-JSON message, which does not
mention the status 200, instead of the empty-body error the claim states. -/
theorem whitespace_body_not_empty_error :
    uploadResume (FetchOutcome.response 200 " " none) =
      Except.error "Invalid JSON response from server" ∧
    ¬ ("200".toList <:+: "Invalid JSON response from server".toList) ∧
    ¬ ("Empty".toList <:+: "Invalid JSON response from server".toList) :=
  ⟨rfl, by decide, by decide⟩

/-- C4 (amended): a strictly empty 2xx body makes uploadResume and
analyzeRole of api.js reject with the empty-body error, whose message
mentions the numeric status; the safeParseResponse variant of part_001
extends this to every whitespace-only body. -/
theorem empty_body_rejected_with_status (status : Nat)
    (hok : resOk status = true) :
    (uploadResume (FetchOutcome.response status "" none) =
        Except.error ("Empty response from server (status: " ++ toString status ++ ")") ∧
      analyzeRole (FetchOutcome.response status "" none) =
        Except.error ("Empty response from server (status: " ++ toString status ++ ")") ∧
      (toString status).toList <:+:
        ("Empty response from server (status: " ++ toString status ++ ")").toList) ∧
    (∀ text parse, jsTrim text = "" →
      safeParseResponse status text parse =
        Except.error ("Empty response from server (status: " ++ toString status ++ ")")) := by
  refine ⟨⟨?_, ?_, toList_infix_mid _ _ _⟩, ?_⟩
  · rw [uploadResume_response_ok _ _ _ hok, safeParse_empty]
  · rw [analyzeRole_response_ok _ _ _ hok, safeParse_empty]
  · intro text parse ht
    simp [safeParseResponse, ht]

/-- C4 witness: the amended theorem applied at status 200 with the empty
body for api.js and a one-space body for safeParseResponse. -/
theorem empty_body_rejected_with_status_witness :
    resOk 200 = true ∧ jsTrim " " = "" ∧
    uploadResume (FetchOutcome.response 200 "" none) =
      Except.error ("Empty response from server (status: " ++ toString 200 ++ ")") ∧
    safeParseResponse 200 " " none =
      Except.error ("Empty response from server (status: " ++ toString 200 ++ ")") := by
  refine ⟨rfl, rfl, ?_, ?_⟩
  · exact (empty_body_rejected_with_status 200 rfl).1.1
  · exact (empty_body_rejected_with_status 200 rfl).2 " " none rfl

/-- C5 (counterexample): a 200 response with the non-JSON body not-json
(scenario D of the spec) makes analyzeRole of api.js reject with the fixed
invalid-JSON message, which contains no excerpt of the body at all. -/
theorem invalid_json_message_has_no_excerpt :
    analyzeRole (FetchOutcome.response 200 "not json\x7b" none) =
      Except.error "Invalid JSON response from server" ∧
    ¬ ("not json\x7b".toList <:+:
        "Invalid JSON response from server".toList) :=
  ⟨rfl, by decide⟩

/-- C5 (amended): for every 2xx response with a non-empty body rejected by
JSON.parse, uploadResume and analyzeRole of api.js reject with the fixed
invalid-JSON message without excerpt, while the safeParse variant of
part_001 appends exactly the first 100 characters of the body, an excerpt
that never exceeds 100 characters and, for bodies longer than the 135
characters the whole message can hold, never contains the full body. -/
theorem invalid_json_excerpt_bounded (status : Nat) (text : String)
    (hok : resOk status = true) (hne : text ≠ "") :
    uploadResume (FetchOutcome.response status text none) =
      Except.error "Invalid JSON response from server" ∧
    analyzeRole (FetchOutcome.response status text none) =
      Except.error "Invalid JSON response from server" ∧
    safeParseBounded status text none =
      Except.error ("Invalid JSON response from server: " ++ jsSubstring0 text 100) ∧
    (jsSubstring0 text 100).length ≤ 100 ∧
    (135 < text.length →
      ¬ (text.toList <:+:
          ("Invalid JSON response from server: " ++ jsSubstring0 text 100).toList)) := by
  have htake : (text.toList.take 100).length ≤ 100 := by
    rw [List.length_take]
    exact min_le_left _ _
  refine ⟨?_, ?_, ?_, htake, ?_⟩
  · rw [uploadResume_response_ok _ _ _ hok, safeParse_invalid _ _ hne]
  · rw [analyzeRole_response_ok _ _ _ hok, safeParse_invalid _ _ hne]
  · unfold safeParseBounded
    rw [if_neg hne]
  · intro hgt hinf
    have hle := hinf.length_le
    have hdata :
        ("Invalid JSON response from server: " ++ jsSubstring0 text 100).toList.length =
          35 + (text.toList.take 100).length := by
      show (("Invalid JSON response from server: " ++ jsSubstring0 text 100)).data.length = _
      rw [String.data_append, List.length_append]
      rfl
    rw [hdata] at hle
    have hfin : text.length ≤ 135 := by
      have h2 : text.toList.length ≤ 35 + 100 :=
        le_trans hle (Nat.add_le_add_left htake 35)
      exact h2
    omega

/-- C5 witness: the amended theorem applied at status 200 with the
scenario-D body. -/
theorem invalid_json_excerpt_bounded_witness :
    resOk 200 = true ∧ ("not json\x7b" : String) ≠ "" ∧
    safeParseBounded 200 "not json\x7b" none =
      Except.error ("Invalid JSON response from server: " ++
        jsSubstring0 "not json\x7b" 100) := by
  refine ⟨rfl, by decide, ?_⟩
  exact (invalid_json_excerpt_bounded 200 "not json\x7b" rfl (by decide)).2.2.1

/-- C6: for every non-2xx response whose body JSON.parse rejects,
uploadResume and analyzeRole reject with the raw body text when it is
non-empty, and otherwise with the HTTP fallback message, which contains the
numeric status code. -/
theorem http_error_raw_text_or_status (status : Nat) (text : String)
    (hbad : resOk status = false) :
    (text ≠ "" →
      uploadResume (FetchOutcome.response status text none) = Except.error text ∧
      analyzeRole (FetchOutcome.response status text none) = Except.error text) ∧
    (text = "" →
      uploadResume (FetchOutcome.response status text none) =
        Except.error ("HTTP " ++ toString status) ∧
      analyzeRole (FetchOutcome.response status text none) =
        Except.error ("HTTP " ++ toString status) ∧
      (toString status).toList <:+: ("HTTP " ++ toString status).toList) := by
  constructor
  · intro ht
    rw [uploadResume_response_bad _ _ _ hbad, analyzeRole_response_bad _ _ _ hbad,
      if_neg ht]
    exact ⟨rfl, rfl⟩
  · intro ht
    subst ht
    rw [uploadResume_response_bad _ _ _ hbad, analyzeRole_response_bad _ _ _ hbad,
      if_pos rfl]
    exact ⟨rfl, rfl, toList_infix_right _ _⟩

/-- C6 witness: the theorem applied at a 404 response with body oops and at
a 404 response with an empty body. -/
theorem http_error_raw_text_or_status_witness :
    resOk 404 = false ∧ ("oops" : String) ≠ "" ∧
    uploadResume (FetchOutcome.response 404 "oops" none) = Except.error "oops" ∧
    uploadResume (FetchOutcome.response 404 "" none) =
      Except.error ("HTTP " ++ toString 404) := by
  refine ⟨rfl, by decide, ?_, ?_⟩
  · exact ((http_error_raw_text_or_status 404 "oops" rfl).1 (by decide)).1
  · exact ((http_error_raw_text_or_status 404 "" rfl).2 rfl).1

/-- C7 (counterexample): API_BASE_URL of api.js takes the env value as is,
so the two configurations of the claim produce different request URLs for
both operations (the first yields a double slash before the path). -/
theorem trailing_slash_changes_urls :
    uploadUrl (API_BASE_URL (some "https://api.example.com/")) ≠
      uploadUrl (API_BASE_URL (some "https://api.example.com")) ∧
    analyzeUrl (API_BASE_URL (some "https://api.example.com/")) ≠
      analyzeUrl (API_BASE_URL (some "https://api.example.com")) :=
  ⟨by decide, by decide⟩

/-- C7 (amended): the getApiBaseUrl resolver of part_001 trims surrounding
whitespace and strips exactly one trailing slash, so through it the two
configurations of the claim produce identical request URLs, whether the
value arrives through the env variable or the window override; the
unnormalized API_BASE_URL of api.js does not do this. -/
theorem getApiBaseUrl_normalizes_request_urls :
    uploadUrl (getApiBaseUrl none (some "https://api.example.com/") none) =
      uploadUrl (getApiBaseUrl none (some "https://api.example.com") none) ∧
    analyzeUrl (getApiBaseUrl none (some "https://api.example.com/") none) =
      analyzeUrl (getApiBaseUrl none (some "https://api.example.com") none) ∧
    uploadUrl (getApiBaseUrl (some "https://api.example.com/") none none) =
      uploadUrl (getApiBaseUrl (some "https://api.example.com") none none) ∧
    getApiBaseUrl none (some "  https://api.example.com/  ") none =
      "https://api.example.com" ∧
    getApiBaseUrl none (some "https://api.example.com//") none =
      "https://api.example.com/" :=
  ⟨by decide, by decide, by decide, by decide, by decide⟩

/-- C8: getApiBaseUrl of part_001 resolves the base URL by strict
precedence: a non-blank window override wins and makes the env variables
irrelevant; otherwise a non-blank VITE_API_BASE_URL wins and makes the
legacy VITE_API_URL irrelevant; otherwise a non-blank VITE_API_URL is used;
otherwise the result is the empty string; and the resolver is a total pure
function, so the same inputs always give the same string. -/
theorem base_url_resolution_precedence (w a b : Option String) :
    (isBlank w = false →
      (∀ a2 b2, getApiBaseUrl w a b = getApiBaseUrl w a2 b2) ∧
      getApiBaseUrl w a b = stripOneTrailingSlash (jsTrim (w.getD ""))) ∧
    (isBlank w = true → isBlank a = false →
      (∀ b2, getApiBaseUrl w a b = getApiBaseUrl w a b2) ∧
      getApiBaseUrl w a b = stripOneTrailingSlash (jsTrim (a.getD ""))) ∧
    (isBlank w = true → isBlank a = true → isBlank b = false →
      getApiBaseUrl w a b = stripOneTrailingSlash (jsTrim (b.getD ""))) ∧
    (isBlank w = true → isBlank a = true → isBlank b = true →
      getApiBaseUrl w a b = "") ∧
    getApiBaseUrl w a b = getApiBaseUrl w a b := by
  refine ⟨fun hw => ⟨fun a2 b2 => ?_, ?_⟩,
    fun hw ha => ⟨fun b2 => ?_, ?_⟩, fun hw ha hb => ?_, fun hw ha hb => ?_, rfl⟩
  · simp [getApiBaseUrl, hw]
  · simp [getApiBaseUrl, hw]
  · simp [getApiBaseUrl, hw, ha]
  · simp [getApiBaseUrl, hw, ha]
  · simp [getApiBaseUrl, hw, ha, hb]
  · simp [getApiBaseUrl, hw, ha, hb]
    rfl

/-- C8 witness: the precedence theorem applied to a non-blank window
override, showing the env variables are ignored. -/
theorem base_url_resolution_precedence_witness :
    isBlank (some " https://w.example/ ") = false ∧
    getApiBaseUrl (some " https://w.example/ ") (some "a") (some "b") =
      getApiBaseUrl (some " https://w.example/ ") none none := by
  refine ⟨by decide, ?_⟩
  exact ((base_url_resolution_precedence (some " https://w.example/ ")
    (some "a") (some "b")).1 (by decide)).1 none none

/-- C9 (counterexample): a transport failure whose thrown Error carries the
platform message Failed to fetch is surfaced by uploadResume with exactly
that message, which contains neither a CORS hint nor a base-URL hint. -/
theorem transport_error_has_no_hint :
    uploadResume (FetchOutcome.failure (Thrown.jsError "Failed to fetch")) =
      Except.error "Failed to fetch" ∧
    ¬ ("CORS".toList <:+: "Failed to fetch".toList) ∧
    ¬ ("base".toList <:+: "Failed to fetch".toList) ∧
    ¬ ("URL".toList <:+: "Failed to fetch".toList) :=
  ⟨rfl, by decide, by decide, by decide⟩

/-- C9 (amended): for every transport-level failure, uploadResume and
analyzeRole reject with exactly the message of the thrown Error, or with
their fixed unknown-error fallback when the thrown value is not an Error;
no JSON-parsing text and no extra hint is mixed in, because the body is
never reached on this path. -/
theorem transport_error_message_passthrough (m : String) :
    uploadResume (FetchOutcome.failure (Thrown.jsError m)) = Except.error m ∧
    analyzeRole (FetchOutcome.failure (Thrown.jsError m)) = Except.error m ∧
    uploadResume (FetchOutcome.failure Thrown.nonError) =
      Except.error "Unknown error uploading resume" ∧
    analyzeRole (FetchOutcome.failure Thrown.nonError) =
      Except.error "Unknown error analyzing role" :=
  ⟨rfl, rfl, rfl, rfl⟩

/-- C10 (counterexample): the console-log argument Object.keys(parsed) is a
control-flow dependency of the result: on a 200 response with body null,
uploadResume rejects, while the log-free client resolves with null. -/
theorem logging_changes_result_on_null :
    uploadResume (FetchOutcome.response 200 "null" (some Json.null)) =
      Except.error "Invalid JSON response from server" ∧
    uploadResumeLogFree (FetchOutcome.response 200 "null" (some Json.null)) =
      Except.ok Json.null ∧
    uploadResume (FetchOutcome.response 200 "null" (some Json.null)) ≠
      uploadResumeLogFree (FetchOutcome.response 200 "null" (some Json.null)) := by
  refine ⟨rfl, rfl, fun e => ?_⟩
  exact Except.noConfusion e

/-- C10 (amended): the client is a pure function of the fetch outcome, so
equal inputs give equal outcomes; and removing the console-log calls
changes nothing except on 2xx responses whose body parses to null, the one
case where the log argument Object.keys(parsed) throws. -/
theorem deterministic_and_logfree_agree_off_null :
    (∀ o o2 : FetchOutcome, o = o2 →
      uploadResume o = uploadResume o2 ∧ analyzeRole o = analyzeRole o2) ∧
    (∀ t, uploadResume (FetchOutcome.failure t) =
        uploadResumeLogFree (FetchOutcome.failure t) ∧
      analyzeRole (FetchOutcome.failure t) =
        analyzeRoleLogFree (FetchOutcome.failure t)) ∧
    (∀ status text parse, parse ≠ some Json.null →
      uploadResume (FetchOutcome.response status text parse) =
        uploadResumeLogFree (FetchOutcome.response status text parse) ∧
      analyzeRole (FetchOutcome.response status text parse) =
        analyzeRoleLogFree (FetchOutcome.response status text parse)) := by
  refine ⟨fun o o2 e => by rw [e]; exact ⟨rfl, rfl⟩, fun t => ⟨rfl, rfl⟩,
    fun status text parse h => ⟨?_, ?_⟩⟩
  · simp only [uploadResume, uploadResumeLogFree]
    rw [clientTry_eq_logFree status text parse h]
  · simp only [analyzeRole, analyzeRoleLogFree]
    rw [clientTry_eq_logFree status text parse h]

/-- C10 witness: the amended theorem applied at a 200 response with body 7,
whose parse result is not null. -/
theorem deterministic_and_logfree_agree_off_null_witness :
    (some (Json.num 7) ≠ some Json.null) ∧
    uploadResume (FetchOutcome.response 200 "7" (some (Json.num 7))) =
      uploadResumeLogFree (FetchOutcome.response 200 "7" (some (Json.num 7))) := by
  refine ⟨fun e => Json.noConfusion (Option.some.inj e), ?_⟩
  exact (deterministic_and_logfree_agree_off_null.2.2 200 "7" (some (Json.num 7))
    (fun e => Json.noConfusion (Option.some.inj e))).1

end SkillJudge
